import Mathlib

/-!
Shallow embedding of the integrate-book-articles service (src/main.py).

The service moves one document per trigger from the staging collection to
the final collection, inside a single Firestore transaction, wrapped in a
backoff retry that re-attempts only on three transient exception classes
with at most three total tries.

Documents are modelled as association lists from field names to values,
the two collections as association lists from document ids to documents,
and the transaction as a pure body that reads a store snapshot and buffers
mutations which are applied only on a successful commit.  Transient store
failures are injected through a fault schedule indexed by attempt number.
-/

namespace IntegrateArticles

/-- A field value: opaque string data, or the server-timestamp sentinel
that stands for firestore.SERVER_TIMESTAMP (resolved at commit time by
the store). -/
inductive Value where
  | str : String → Value
  | serverTimestamp : Value
deriving DecidableEq

/-- A document's field map (a Python dict), as an association list. -/
abbrev Doc : Type := List (String × Value)

/-- Lookup in an association list (dict.get / `d[k]`). -/
def alGet {α : Type} (l : List (String × α)) (k : String) : Option α :=
  (l.find? (fun p => p.1 == k)).map (fun p => p.2)

/-- Remove every entry with the given key (dict.pop / document delete). -/
def alErase {α : Type} (l : List (String × α)) (k : String) : List (String × α) :=
  l.filter (fun p => p.1 != k)

/-- Bind the key to the value, replacing any previous binding
(dict assignment / document set). -/
def alSet {α : Type} (l : List (String × α)) (k : String) (v : α) : List (String × α) :=
  alErase l k ++ [(k, v)]

/-- Number of entries carrying the given key. -/
def alCount {α : Type} (l : List (String × α)) (k : String) : Nat :=
  (l.filter (fun p => p.1 == k)).length

/-- Error classes raised by the service: ValidationError, the three
transient GCP exception classes named in the backoff decorator
(Aborted, DeadlineExceeded, ServiceUnavailable), and anything else. -/
inductive Err where
  | validation : String → Err
  | aborted : Err
  | deadlineExceeded : Err
  | serviceUnavailable : Err
  | other : String → Err
deriving DecidableEq

/-- The retry predicate of the backoff decorator: exactly the three
transient exception classes are retried. -/
def Err.isTransient : Err → Bool
  | .aborted => true
  | .deadlineExceeded => true
  | .serviceUnavailable => true
  | _ => false

/-- Human-readable detail attached to an error. -/
def Err.detail : Err → String
  | .validation m => m
  | .aborted => "aborted"
  | .deadlineExceeded => "deadline exceeded"
  | .serviceUnavailable => "service unavailable"
  | .other m => m

/-- DocumentStatus.PROCESSED.value -/
def PROCESSED : String := "processed"

/-- Python str.strip with no argument: drop leading and trailing
whitespace characters. -/
def pyStrip (s : String) : String :=
  String.mk (((s.data.dropWhile Char.isWhitespace).reverse.dropWhile
    Char.isWhitespace).reverse)

/-- Python membership test `c in s` over a string's characters. -/
def pyContainsChar (s : String) (c : Char) : Bool :=
  s.data.contains c

/-- Python str.startswith. -/
def pyStartsWith (s t : String) : Bool :=
  List.isPrefixOf t.data s.data

/-- Validator.validate_document_id: reject a missing or falsy id, strip
surrounding whitespace, reject an empty or over-long (> 100) stripped id,
reject a stripped id containing the path separator or starting with the
reserved double-underscore; otherwise return the stripped id. -/
def validate_document_id (doc_id : Option String) : Except Err String :=
  match doc_id with
  | none => Except.error (Err.validation ("documentId is invalid"))
  | some s =>
    if s = "" then Except.error (Err.validation ("documentId is invalid"))
    else
      let stripped_id := pyStrip s
      if stripped_id = "" ∨ stripped_id.length > 100 then
        Except.error (Err.validation ("documentId is malformed"))
      else if pyContainsChar stripped_id ('/') ∨ pyStartsWith stripped_id ("__") then
        Except.error (Err.validation ("documentId contains invalid characters"))
      else Except.ok stripped_id

/-- Validator.validate_document: fail when the dict is falsy (document
absent, or an empty dict) or when its status field differs from
PROCESSED.  Returns the validated dict, standing for the caller reading
staging_snapshot.to_dict() after validation succeeded. -/
def validate_document (doc_data : Option Doc) (doc_id : String) : Except Err Doc :=
  match doc_data with
  | none => Except.error (Err.validation ("document does not exist: " ++ doc_id))
  | some d =>
    if d.isEmpty then
      Except.error (Err.validation ("document does not exist: " ++ doc_id))
    else if alGet d ("status") ≠ some (Value.str PROCESSED) then
      Except.error (Err.validation ("document is not eligible"))
    else Except.ok d

/-- The five transient workflow fields popped by _prepare_final_doc. -/
def transientWorkflowFields : List String :=
  ["status", "queuedAt", "processingStartedAt", "processedAt", "batchId"]

/-- ArticleIntegrator._prepare_final_doc: copy the staged fields, pop the
five transient workflow fields, then set integratedAt and updatedAt to
the server-timestamp sentinel. -/
def prepare_final_doc (data : Doc) : Doc :=
  let final_data := transientWorkflowFields.foldl (fun d f => alErase d f) data
  alSet (alSet final_data ("integratedAt") Value.serverTimestamp)
    ("updatedAt") Value.serverTimestamp

/-- The two collections: staging_articles and articles, keyed by
document id. -/
structure Store where
  staging : List (String × Doc)
  final : List (String × Doc)
deriving DecidableEq

/-- A mutation buffered inside the transaction (trans.set / trans.delete). -/
inductive Effect where
  | setFinal : String → Doc → Effect
  | deleteStaging : String → Effect
deriving DecidableEq

def applyEffect (s : Store) : Effect → Store
  | .setFinal k d => { s with final := alSet s.final k d }
  | .deleteStaging k => { s with staging := alErase s.staging k }

/-- Apply the buffered mutations of a committed transaction, in order. -/
def applyEffects (s : Store) (effs : List Effect) : Store :=
  effs.foldl applyEffect s

/-- The body of _integrate_in_transaction: read both snapshots; if the
final document exists, buffer a delete of the staging document when it
exists and return False; otherwise validate the staging document, derive
the final document, buffer its write and the staging delete, and return
True.  The boolean result is paired with the buffered mutations. -/
def txBody (s : Store) (doc_id : String) : Except Err (Bool × List Effect) :=
  let staging_snapshot := alGet s.staging doc_id
  let final_snapshot := alGet s.final doc_id
  match final_snapshot with
  | some _ =>
    Except.ok (false,
      if staging_snapshot.isSome then [Effect.deleteStaging doc_id] else [])
  | none =>
    match validate_document staging_snapshot doc_id with
    | Except.error e => Except.error e
    | Except.ok d =>
      let final_doc := prepare_final_doc d
      Except.ok (true, [Effect.setFinal doc_id final_doc, Effect.deleteStaging doc_id])

/-- A failure injected by the store into one transaction attempt: either
before the body runs (contention, unavailability), or at commit time
after the body has buffered its mutations. -/
inductive Fault where
  | beforeBody : Err → Fault
  | atCommit : Err → Fault

/-- One transactional attempt: on success the buffered mutations are
applied atomically; on any failure, injected or raised by the body,
nothing is applied and the store is unchanged. -/
def runTransaction (s : Store) (doc_id : String) (fault : Option Fault) :
    Except Err Bool × Store :=
  match fault with
  | some (Fault.beforeBody e) => (Except.error e, s)
  | some (Fault.atCommit e) =>
    match txBody s doc_id with
    | Except.error ve => (Except.error ve, s)
    | Except.ok _ => (Except.error e, s)
  | none =>
    match txBody s doc_id with
    | Except.error e => (Except.error e, s)
    | Except.ok (b, effs) => (Except.ok b, applyEffects s effs)

instance {ε α : Type} [DecidableEq ε] [DecidableEq α] : DecidableEq (Except ε α) :=
  fun a b =>
  match a, b with
  | Except.ok x, Except.ok y =>
    if h : x = y then isTrue (by rw [h])
    else isFalse (fun hc => h (Except.ok.inj hc))
  | Except.error x, Except.error y =>
    if h : x = y then isTrue (by rw [h])
    else isFalse (fun hc => h (Except.error.inj hc))
  | Except.ok _, Except.error _ => isFalse (fun hc => Except.noConfusion hc)
  | Except.error _, Except.ok _ => isFalse (fun hc => Except.noConfusion hc)

/-- Result of one call to integrate: the returned boolean or the raised
error, the resulting store, and the number of on_backoff log events. -/
structure RunResult where
  result : Except Err Bool
  store : Store
  retryLogs : Nat
deriving DecidableEq

/-- The backoff.on_exception loop: run an attempt; re-attempt only when
the error is one of the three transient classes and tries remain,
logging one on_backoff event per re-attempt; otherwise propagate. -/
def integrateLoop (faults : Nat → Option Fault) (doc_id : String) :
    Store → Nat → Nat → Nat → RunResult
  | s, 0, _, logs => ⟨Except.error (Err.other ("no tries remain")), s, logs⟩
  | s, remaining + 1, attempt, logs =>
    match runTransaction s doc_id (faults attempt) with
    | (Except.ok b, s2) => ⟨Except.ok b, s2, logs⟩
    | (Except.error e, s2) =>
      if e.isTransient ∧ remaining ≠ 0 then
        integrateLoop faults doc_id s2 remaining (attempt + 1) (logs + 1)
      else ⟨Except.error e, s2, logs⟩

/-- backoff max_tries=3. -/
def MAX_TRIES : Nat := 3

/-- ArticleIntegrator.integrate: the transactional move wrapped in the
backoff retry.  The fault schedule gives the store failure injected into
each attempt, none meaning the attempt reaches commit. -/
def integrate (faults : Nat → Option Fault) (s : Store) (doc_id : String) : RunResult :=
  integrateLoop faults doc_id s MAX_TRIES 0 0

/-- The fault-free schedule: every attempt reaches commit. -/
def noFaults : Nat → Option Fault := fun _ => none

/-- Schedule injecting one store failure into the first attempt only. -/
def failFirst (e : Err) : Nat → Option Fault :=
  fun n => if n = 0 then some (Fault.beforeBody e) else none

/-- Schedule injecting store failures into the first two attempts. -/
def failFirstTwo (e1 e2 : Err) : Nat → Option Fault :=
  fun n => if n = 0 then some (Fault.beforeBody e1)
    else if n = 1 then some (Fault.beforeBody e2) else none

/-- Schedule injecting a store failure into every attempt. -/
def failAll (e1 e2 e3 : Err) : Nat → Option Fault :=
  fun n => if n = 0 then some (Fault.beforeBody e1)
    else if n = 1 then some (Fault.beforeBody e2)
    else some (Fault.beforeBody e3)

/-- The four outcomes the spec distinguishes at the orchestration layer. -/
inductive Outcome where
  | moved : Outcome
  | alreadyMoved : Outcome
  | rejected : String → Outcome
  | failed : String → Outcome
deriving DecidableEq

/-- handle_pubsub_message's mapping of the integrate result: True is
Success/204 (Moved), False is Skipped/200 (AlreadyMoved), ValidationError
is Bad Request/400 (Rejected), anything else is 500 (Failed). -/
def mapResult : Except Err Bool → Outcome
  | Except.ok true => Outcome.moved
  | Except.ok false => Outcome.alreadyMoved
  | Except.error (Err.validation m) => Outcome.rejected m
  | Except.error e => Outcome.failed (Err.detail e)

/-- The core of handle_pubsub_message: validate the raw document id, then
run integrate on the validated id and map the result.  A validation
failure returns Rejected with the store untouched. -/
def handle_pubsub_message (faults : Nat → Option Fault) (s : Store)
    (documentId : Option String) : Outcome × Store :=
  match validate_document_id documentId with
  | Except.error (Err.validation m) => (Outcome.rejected m, s)
  | Except.error e => (Outcome.failed (Err.detail e), s)
  | Except.ok doc_id =>
    let r := integrate faults s doc_id
    (mapResult r.result, r.store)

/-- A sample staged document matching the spec's field-transform example. -/
def sampleDoc : Doc :=
  [("status", Value.str ("processed")), ("batchId", Value.str ("b1")),
   ("title", Value.str ("X"))]

/-- A sample store holding the sample document staged under key k. -/
def sampleStore : Store :=
  { staging := [("k", sampleDoc)], final := [] }

/-- A sample store whose final collection already holds key k. -/
def sampleStoreFinal : Store :=
  { staging := [("k", sampleDoc)],
    final := [("k", [("title", Value.str ("X"))])] }

/-- A sample store whose staged document is still queued. -/
def queuedStore : Store :=
  { staging := [("k", [("status", Value.str ("queued"))])], final := [] }

/-- A staged document already carrying timestamp fields. -/
def docWithTs : Doc :=
  [("status", Value.str ("processed")), ("integratedAt", Value.str ("old")),
   ("updatedAt", Value.str ("older"))]

end IntegrateArticles

namespace IntegrateArticles

theorem find?_filter_of_imp {α : Type} (l : List α) (p q : α → Bool)
    (h : ∀ x, p x = true → q x = true) :
    (l.filter q).find? p = l.find? p := by
  induction l with
  | nil => rfl
  | cons a t ih =>
    by_cases hq : q a = true
    · rw [List.filter_cons_of_pos hq]
      by_cases hp : p a = true
      · rw [List.find?_cons_of_pos t hp, List.find?_cons_of_pos (t.filter q) hp]
      · rw [List.find?_cons_of_neg t hp, List.find?_cons_of_neg (t.filter q) hp, ih]
    · have hp : ¬p a = true := fun hpa => hq (h a hpa)
      rw [List.filter_cons_of_neg hq, List.find?_cons_of_neg t hp, ih]

theorem alGet_alErase_same {α : Type} (l : List (String × α)) (k : String) :
    alGet (alErase l k) k = none := by
  unfold alGet alErase
  rw [List.find?_eq_none.mpr]
  · rfl
  · intro p hp
    have h2 := (List.mem_filter.mp hp).2
    simp only [bne_iff_ne, ne_eq] at h2
    simp [h2]

theorem alGet_alErase_ne {α : Type} (l : List (String × α)) (k f : String)
    (hne : k ≠ f) :
    alGet (alErase l f) k = alGet l k := by
  unfold alGet alErase
  rw [find?_filter_of_imp]
  intro p hp
  have h1 : p.1 = k := by simpa using hp
  simp [h1, bne_iff_ne, hne]

theorem alGet_alSet_same {α : Type} (l : List (String × α)) (k : String) (v : α) :
    alGet (alSet l k v) k = some v := by
  have h0 : alGet (alErase l k) k = none := alGet_alErase_same l k
  unfold alGet at h0 ⊢
  unfold alSet
  rw [List.find?_append]
  have h1 : (alErase l k).find? (fun p => p.1 == k) = none := by
    cases hfind : (alErase l k).find? (fun p => p.1 == k) with
    | none => rfl
    | some p => rw [hfind] at h0; simp at h0
  rw [h1]
  simp

theorem alGet_alSet_ne {α : Type} (l : List (String × α)) (k k2 : String) (v : α)
    (hne : k ≠ k2) :
    alGet (alSet l k2 v) k = alGet l k := by
  unfold alSet
  have h1 : alGet (alErase l k2 ++ [(k2, v)]) k = alGet (alErase l k2) k := by
    unfold alGet
    rw [List.find?_append]
    have h2 : List.find? (fun p => p.1 == k) [(k2, v)] = none := by
      have h3 : (k2 == k) = false := by
        simp [Ne.symm hne]
      simp [List.find?, h3]
    rw [h2]
    simp
  rw [h1, alGet_alErase_ne l k k2 hne]

theorem alCount_alErase_same {α : Type} (l : List (String × α)) (k : String) :
    alCount (alErase l k) k = 0 := by
  unfold alCount alErase
  rw [List.filter_filter]
  have h : ∀ x : String × α, ((x.1 == k) && (x.1 != k)) = false := by
    intro x
    by_cases hx : x.1 = k <;> simp [hx]
  simp [h]

theorem alCount_alSet_same {α : Type} (l : List (String × α)) (k : String) (v : α) :
    alCount (alSet l k v) k = 1 := by
  unfold alCount alSet alErase
  rw [List.filter_append, List.filter_filter]
  have h : ∀ x : String × α, ((x.1 == k) && (x.1 != k)) = false := by
    intro x
    by_cases hx : x.1 = k <;> simp [hx]
  simp [h]

theorem alErase_of_alGet_none {α : Type} (l : List (String × α)) (k : String)
    (h : alGet l k = none) :
    alErase l k = l := by
  unfold alGet at h
  unfold alErase
  rw [List.filter_eq_self.mpr]
  intro p hp
  have h2 : ∀ x ∈ l, ¬(x.1 == k) = true := by
    intro x hx
    have := List.find?_eq_none.mp (by
      cases hfind : l.find? (fun q => q.1 == k) with
      | none => rfl
      | some q => rw [hfind] at h; simp at h)
    exact this x hx
  have h3 := h2 p hp
  simp only [beq_iff_eq] at h3
  simp [bne_iff_ne, h3]

theorem isEmpty_false_of_alGet {α : Type} (l : List (String × α)) (k : String)
    (v : α) (h : alGet l k = some v) :
    l.isEmpty = false := by
  cases l with
  | nil => simp [alGet] at h
  | cons a t => rfl

theorem alGet_eraseList {α : Type} (l : List (String × α)) (fs : List String)
    (k : String) :
    alGet (fs.foldl (fun d f => alErase d f) l) k =
      if k ∈ fs then none else alGet l k := by
  induction fs generalizing l with
  | nil => simp
  | cons f t ih =>
    rw [List.foldl_cons, ih]
    by_cases hk : k ∈ t
    · simp [hk]
    · by_cases hf : k = f
      · subst hf
        simp [hk, alGet_alErase_same]
      · simp [hk, hf, alGet_alErase_ne l k f hf]

end IntegrateArticles

namespace IntegrateArticles

theorem txBody_already (s : Store) (k : String) (fd : Doc)
    (hf : alGet s.final k = some fd) :
    txBody s k = Except.ok (false,
      if (alGet s.staging k).isSome then [Effect.deleteStaging k] else []) := by
  simp only [txBody]
  rw [hf]

theorem txBody_moved (s : Store) (k : String) (d : Doc)
    (hf : alGet s.final k = none)
    (hs : alGet s.staging k = some d)
    (hstat : alGet d ("status") = some (Value.str PROCESSED)) :
    txBody s k = Except.ok (true,
      [Effect.setFinal k (prepare_final_doc d), Effect.deleteStaging k]) := by
  have hne : d.isEmpty = false := isEmpty_false_of_alGet d ("status") _ hstat
  simp only [txBody]
  rw [hf, hs]
  simp only [validate_document, hne, hstat]
  simp

theorem txBody_rejected (s : Store) (k : String)
    (hf : alGet s.final k = none)
    (hgate : ∀ d, alGet s.staging k = some d →
      alGet d ("status") ≠ some (Value.str PROCESSED)) :
    ∃ m, txBody s k = Except.error (Err.validation m) := by
  simp only [txBody]
  rw [hf]
  cases hs : alGet s.staging k with
  | none => exact ⟨("document does not exist: " ++ k), by simp [validate_document]⟩
  | some d =>
    by_cases hde : d.isEmpty
    · exact ⟨("document does not exist: " ++ k), by simp [validate_document, hde]⟩
    · refine ⟨("document is not eligible"), ?_⟩
      simp only [validate_document, hde]
      rw [if_neg (by simp at hde; simp [hde]), if_pos (hgate d hs)]

theorem integrateLoop_succ (faults : Nat → Option Fault) (doc_id : String)
    (s : Store) (remaining attempt logs : Nat) :
    integrateLoop faults doc_id s (remaining + 1) attempt logs =
      match runTransaction s doc_id (faults attempt) with
      | (Except.ok b, s2) => ⟨Except.ok b, s2, logs⟩
      | (Except.error e, s2) =>
        if e.isTransient ∧ remaining ≠ 0 then
          integrateLoop faults doc_id s2 remaining (attempt + 1) (logs + 1)
        else ⟨Except.error e, s2, logs⟩ := rfl

theorem integrate_ok_first (faults : Nat → Option Fault) (s : Store) (k : String)
    (b : Bool) (effs : List Effect)
    (h0 : faults 0 = none)
    (htx : txBody s k = Except.ok (b, effs)) :
    integrate faults s k = ⟨Except.ok b, applyEffects s effs, 0⟩ := by
  unfold integrate MAX_TRIES
  rw [show (3 : Nat) = 2 + 1 from rfl, integrateLoop_succ]
  simp [runTransaction, h0, htx]

theorem integrate_err_first (faults : Nat → Option Fault) (s : Store) (k : String)
    (e : Err)
    (h0 : faults 0 = none)
    (htx : txBody s k = Except.error e)
    (hnt : e.isTransient = false) :
    integrate faults s k = ⟨Except.error e, s, 0⟩ := by
  unfold integrate MAX_TRIES
  rw [show (3 : Nat) = 2 + 1 from rfl, integrateLoop_succ]
  simp [runTransaction, h0, htx, hnt]

theorem runTransaction_err_store (s : Store) (k : String) (fault : Option Fault)
    (e : Err) (h : (runTransaction s k fault).1 = Except.error e) :
    (runTransaction s k fault).2 = s := by
  cases fault with
  | none =>
    cases htx : txBody s k with
    | error e2 => simp [runTransaction, htx]
    | ok p =>
      obtain ⟨b, effs⟩ := p
      simp [runTransaction, htx] at h
  | some f =>
    cases f with
    | beforeBody e2 => rfl
    | atCommit e2 =>
      cases htx : txBody s k with
      | error e2 => simp [runTransaction, htx]
      | ok p => simp [runTransaction, htx]

end IntegrateArticles

namespace IntegrateArticles

/-- Claim C1: for a key whose staged record exists with status processed and
whose final record does not exist, integrate yields Moved (true) and,
called again on the resulting store, AlreadyMoved (false); afterwards the
store holds exactly one final record for the key and no staged record. -/
theorem claim_idempotent_move (s : Store) (k : String) (d : Doc)
    (hs : alGet s.staging k = some d)
    (hstat : alGet d ("status") = some (Value.str PROCESSED))
    (hf : alGet s.final k = none) :
    (integrate noFaults s k).result = Except.ok true ∧
    (integrate noFaults (integrate noFaults s k).store k).result = Except.ok false ∧
    alCount (integrate noFaults (integrate noFaults s k).store k).store.final k = 1 ∧
    alCount (integrate noFaults (integrate noFaults s k).store k).store.staging k = 0 := by
  have htx := txBody_moved s k d hf hs hstat
  have h1 := integrate_ok_first noFaults s k true _ rfl htx
  have hstore1 : (integrate noFaults s k).store =
      { staging := alErase s.staging k,
        final := alSet s.final k (prepare_final_doc d) } := by
    rw [h1]
    simp [applyEffects, applyEffect]
  have hf2 : alGet (integrate noFaults s k).store.final k =
      some (prepare_final_doc d) := by
    rw [hstore1]
    exact alGet_alSet_same s.final k (prepare_final_doc d)
  have hs2 : alGet (integrate noFaults s k).store.staging k = none := by
    rw [hstore1]
    exact alGet_alErase_same s.staging k
  have htx2 := txBody_already (integrate noFaults s k).store k _ hf2
  rw [hs2] at htx2
  simp only [Option.isSome_none, Bool.false_eq_true, if_false] at htx2
  have h2 := integrate_ok_first noFaults (integrate noFaults s k).store k false _ rfl htx2
  refine ⟨by rw [h1], by rw [h2], ?_, ?_⟩
  · rw [h2]
    simp only [applyEffects, List.foldl_nil]
    rw [hstore1]
    exact alCount_alSet_same s.final k (prepare_final_doc d)
  · rw [h2]
    simp only [applyEffects, List.foldl_nil]
    rw [hstore1]
    exact alCount_alErase_same s.staging k

/-- Claim C2: for a key whose final record exists at the transaction snapshot,
integrate reports AlreadyMoved (false), leaves the final collection
untouched, deletes the staged record if present in the same transaction,
and the number of final records for the key is unchanged. -/
theorem claim_already_moved_branch (s : Store) (k : String) (fd : Doc)
    (hf : alGet s.final k = some fd) :
    (integrate noFaults s k).result = Except.ok false ∧
    (integrate noFaults s k).store.final = s.final ∧
    (integrate noFaults s k).store.staging = alErase s.staging k ∧
    alCount (integrate noFaults s k).store.final k = alCount s.final k := by
  have htx := txBody_already s k fd hf
  cases hst : alGet s.staging k with
  | some d =>
    rw [hst] at htx
    simp only [Option.isSome_some, if_true] at htx
    have h1 := integrate_ok_first noFaults s k false _ rfl htx
    rw [h1]
    simp [applyEffects, applyEffect]
  | none =>
    rw [hst] at htx
    simp only [Option.isSome_none, Bool.false_eq_true, if_false] at htx
    have h1 := integrate_ok_first noFaults s k false _ rfl htx
    rw [h1]
    exact ⟨rfl, rfl, (alErase_of_alGet_none s.staging k hst).symm, rfl⟩

/-- Claim C3: for a key whose final record does not exist and whose staged
record exists with status processed, integrate writes the transformed
final record and deletes the staged record in the same committed
transaction and reports Moved (true); afterwards exactly one final
record exists for the key and no staged record remains. -/
theorem claim_moved_branch (s : Store) (k : String) (d : Doc)
    (hf : alGet s.final k = none)
    (hs : alGet s.staging k = some d)
    (hstat : alGet d ("status") = some (Value.str PROCESSED)) :
    (integrate noFaults s k).result = Except.ok true ∧
    (integrate noFaults s k).store.final = alSet s.final k (prepare_final_doc d) ∧
    (integrate noFaults s k).store.staging = alErase s.staging k ∧
    alCount (integrate noFaults s k).store.final k = 1 ∧
    alGet (integrate noFaults s k).store.staging k = none := by
  have htx := txBody_moved s k d hf hs hstat
  have h1 := integrate_ok_first noFaults s k true _ rfl htx
  rw [h1]
  exact ⟨rfl, rfl, rfl, alCount_alSet_same s.final k (prepare_final_doc d),
    alGet_alErase_same s.staging k⟩

/-- Claim C4: for a key whose final record does not exist and whose staged
record is absent or has a status other than processed, integrate fails
with a ValidationError mapped to Rejected, performs no retry, and leaves
the store unchanged. -/
theorem claim_state_gate (s : Store) (k : String)
    (hf : alGet s.final k = none)
    (hgate : ∀ d, alGet s.staging k = some d →
      alGet d ("status") ≠ some (Value.str PROCESSED)) :
    (∃ m, (integrate noFaults s k).result = Except.error (Err.validation m) ∧
      mapResult (integrate noFaults s k).result = Outcome.rejected m) ∧
    (integrate noFaults s k).store = s ∧
    (integrate noFaults s k).retryLogs = 0 := by
  obtain ⟨m, htx⟩ := txBody_rejected s k hf hgate
  have h1 := integrate_err_first noFaults s k _ rfl htx rfl
  rw [h1]
  exact ⟨⟨m, rfl, rfl⟩, rfl, rfl⟩

/-- Claim C6: any execution of the move transaction that fails at any point
before commit, including a failure injected at commit time after the
write was buffered, leaves the staging and final stores in their exact
pre-transaction state. -/
theorem claim_atomicity (s : Store) (k : String) (fault : Option Fault) (e : Err)
    (h : (runTransaction s k fault).1 = Except.error e) :
    (runTransaction s k fault).2 = s :=
  runTransaction_err_store s k fault e h

end IntegrateArticles

namespace IntegrateArticles

theorem integrateLoop_ok_step (faults : Nat → Option Fault) (k : String)
    (s s2 : Store) (rem att logs : Nat) (b : Bool)
    (hr : runTransaction s k (faults att) = (Except.ok b, s2)) :
    integrateLoop faults k s (rem + 1) att logs = ⟨Except.ok b, s2, logs⟩ := by
  rw [integrateLoop_succ, hr]

theorem integrateLoop_retry (faults : Nat → Option Fault) (k : String)
    (s s2 : Store) (rem att logs : Nat) (e : Err)
    (hr : runTransaction s k (faults att) = (Except.error e, s2))
    (ht : e.isTransient = true) (hrem : rem ≠ 0) :
    integrateLoop faults k s (rem + 1) att logs =
      integrateLoop faults k s2 rem (att + 1) (logs + 1) := by
  rw [integrateLoop_succ, hr]
  simp [ht, hrem]

theorem integrateLoop_stop (faults : Nat → Option Fault) (k : String)
    (s s2 : Store) (rem att logs : Nat) (e : Err)
    (hr : runTransaction s k (faults att) = (Except.error e, s2))
    (hstop : e.isTransient = false ∨ rem = 0) :
    integrateLoop faults k s (rem + 1) att logs = ⟨Except.error e, s2, logs⟩ := by
  rw [integrateLoop_succ, hr]
  rcases hstop with h | h <;> simp [h]

/-- Claim C5: the move is retried only on the three transient error classes,
at most three attempts in total, other errors propagate immediately; two
transient failures followed by a success yield Moved with exactly two
retry-log events; three transient failures yield the last error, mapped
to Failed, with no store mutation persisting. -/
theorem claim_retry_policy (s : Store) (k : String) (d : Doc) (e1 e2 e3 : Err)
    (ht1 : e1.isTransient = true) (ht2 : e2.isTransient = true)
    (ht3 : e3.isTransient = true)
    (hf : alGet s.final k = none)
    (hs : alGet s.staging k = some d)
    (hstat : alGet d ("status") = some (Value.str PROCESSED)) :
    (∀ e : Err, e.isTransient = false →
      integrate (failFirst e) s k = ⟨Except.error e, s, 0⟩) ∧
    integrate (failFirstTwo e1 e2) s k =
      ⟨Except.ok true,
        { staging := alErase s.staging k,
          final := alSet s.final k (prepare_final_doc d) }, 2⟩ ∧
    integrate (failAll e1 e2 e3) s k = ⟨Except.error e3, s, 2⟩ ∧
    mapResult (Except.error e3) = Outcome.failed (Err.detail e3) := by
  have htx := txBody_moved s k d hf hs hstat
  refine ⟨?_, ?_, ?_, ?_⟩
  · intro e hnt
    calc integrate (failFirst e) s k
        = integrateLoop (failFirst e) k s (2 + 1) 0 0 := rfl
      _ = ⟨Except.error e, s, 0⟩ :=
          integrateLoop_stop (failFirst e) k s s 2 0 0 e rfl (Or.inl hnt)
  · have hr2 : runTransaction s k (failFirstTwo e1 e2 2) =
        (Except.ok true,
          { staging := alErase s.staging k,
            final := alSet s.final k (prepare_final_doc d) }) := by
      simp [failFirstTwo, runTransaction, htx, applyEffects, applyEffect]
    calc integrate (failFirstTwo e1 e2) s k
        = integrateLoop (failFirstTwo e1 e2) k s (2 + 1) 0 0 := rfl
      _ = integrateLoop (failFirstTwo e1 e2) k s (1 + 1) 1 1 :=
          integrateLoop_retry (failFirstTwo e1 e2) k s s 2 0 0 e1 rfl ht1 (by decide)
      _ = integrateLoop (failFirstTwo e1 e2) k s (0 + 1) 2 2 :=
          integrateLoop_retry (failFirstTwo e1 e2) k s s 1 1 1 e2 rfl ht2 (by decide)
      _ = ⟨Except.ok true,
            { staging := alErase s.staging k,
              final := alSet s.final k (prepare_final_doc d) }, 2⟩ :=
          integrateLoop_ok_step (failFirstTwo e1 e2) k s _ 0 2 2 true hr2
  · calc integrate (failAll e1 e2 e3) s k
        = integrateLoop (failAll e1 e2 e3) k s (2 + 1) 0 0 := rfl
      _ = integrateLoop (failAll e1 e2 e3) k s (1 + 1) 1 1 :=
          integrateLoop_retry (failAll e1 e2 e3) k s s 2 0 0 e1 rfl ht1 (by decide)
      _ = integrateLoop (failAll e1 e2 e3) k s (0 + 1) 2 2 :=
          integrateLoop_retry (failAll e1 e2 e3) k s s 1 1 1 e2 rfl ht2 (by decide)
      _ = ⟨Except.error e3, s, 2⟩ :=
          integrateLoop_stop (failAll e1 e2 e3) k s s 0 2 2 e3 rfl (Or.inr rfl)
  · cases e3 with
    | validation m => exact absurd ht3 (by simp [Err.isTransient])
    | other m => exact absurd ht3 (by simp [Err.isTransient])
    | aborted => rfl
    | deadlineExceeded => rfl
    | serviceUnavailable => rfl

end IntegrateArticles

namespace IntegrateArticles

/-- Claim C7: validation of a raw identifier fails exactly when the stripped
input is empty, longer than 100 characters, contains the path separator,
or starts with the reserved double-underscore; the listed concrete
inputs are all rejected by handle_pubsub_message with the store
untouched, for every store and fault schedule; and every validation
error surfaces as Rejected with the store untouched. -/
theorem claim_id_validation_gate :
    (∀ raw : String,
      (∃ m, validate_document_id (some raw) = Except.error (Err.validation m)) ↔
      (pyStrip raw = "" ∨ (pyStrip raw).length > 100 ∨
        pyContainsChar (pyStrip raw) ('/') = true ∨
        pyStartsWith (pyStrip raw) ("__") = true)) ∧
    (∀ faults s, handle_pubsub_message faults s (some ("")) =
      (Outcome.rejected ("documentId is invalid"), s)) ∧
    (∀ faults s, handle_pubsub_message faults s (some (" ")) =
      (Outcome.rejected ("documentId is malformed"), s)) ∧
    (∀ faults s, handle_pubsub_message faults s (some ("a/b")) =
      (Outcome.rejected ("documentId contains invalid characters"), s)) ∧
    (∀ faults s, handle_pubsub_message faults s (some ("__reserved")) =
      (Outcome.rejected ("documentId contains invalid characters"), s)) ∧
    (∀ raw : String, (pyStrip raw).length = 101 →
      ∃ m, validate_document_id (some raw) = Except.error (Err.validation m)) ∧
    (∀ faults s raw m,
      validate_document_id (some raw) = Except.error (Err.validation m) →
      handle_pubsub_message faults s (some raw) = (Outcome.rejected m, s)) := by
  refine ⟨?_, ?_, ?_, ?_, ?_, ?_, ?_⟩
  · intro raw
    by_cases hraw : raw = ""
    · subst hraw
      constructor
      · intro _
        exact Or.inl rfl
      · intro _
        exact ⟨("documentId is invalid"), rfl⟩
    · simp only [validate_document_id, if_neg hraw]
      split_ifs with h1 h2
      · constructor
        · intro _
          rcases h1 with h | h
          · exact Or.inl h
          · exact Or.inr (Or.inl h)
        · intro _
          exact ⟨("documentId is malformed"), rfl⟩
      · constructor
        · intro _
          rcases h2 with h | h
          · exact Or.inr (Or.inr (Or.inl h))
          · exact Or.inr (Or.inr (Or.inr h))
        · intro _
          exact ⟨("documentId contains invalid characters"), rfl⟩
      · constructor
        · rintro ⟨m, hm⟩
          exact absurd hm (by simp)
        · intro hr
          rcases hr with h | h | h | h
          · exact absurd (Or.inl h) h1
          · exact absurd (Or.inr h) h1
          · exact absurd (Or.inl h) h2
          · exact absurd (Or.inr h) h2
  · intro faults s
    rfl
  · intro faults s
    rfl
  · intro faults s
    rfl
  · intro faults s
    rfl
  · intro raw h101
    have hraw : raw ≠ "" := by
      intro h
      subst h
      simp [pyStrip] at h101
    refine ⟨("documentId is malformed"), ?_⟩
    simp only [validate_document_id, if_neg hraw]
    rw [if_pos (Or.inr (by omega))]
  · intro faults s raw m h
    simp [handle_pubsub_message, h]

end IntegrateArticles

namespace IntegrateArticles

/-- Claim C8: prepare_final_doc drops exactly the five transient workflow
fields, sets integratedAt and updatedAt to the server-timestamp
sentinel, and carries every other field over unchanged. -/
theorem claim_record_transform (d : Doc) (k : String) :
    (k ∈ transientWorkflowFields → alGet (prepare_final_doc d) k = none) ∧
    alGet (prepare_final_doc d) ("integratedAt") = some Value.serverTimestamp ∧
    alGet (prepare_final_doc d) ("updatedAt") = some Value.serverTimestamp ∧
    (k ∉ transientWorkflowFields → ¬k = "integratedAt" → ¬k = "updatedAt" →
      alGet (prepare_final_doc d) k = alGet d k) := by
  refine ⟨?_, ?_, ?_, ?_⟩
  · intro hmem
    have h1 : k ≠ ("updatedAt") := by
      intro h
      subst h
      revert hmem
      decide
    have h2 : k ≠ ("integratedAt") := by
      intro h
      subst h
      revert hmem
      decide
    simp only [prepare_final_doc]
    rw [alGet_alSet_ne _ k _ _ h1, alGet_alSet_ne _ k _ _ h2, alGet_eraseList]
    rw [if_pos hmem]
  · simp only [prepare_final_doc]
    rw [alGet_alSet_ne _ _ _ _ (by decide : ("integratedAt" : String) ≠ "updatedAt")]
    exact alGet_alSet_same _ _ _
  · simp only [prepare_final_doc]
    exact alGet_alSet_same _ _ _
  · intro hmem hI hU
    simp only [prepare_final_doc]
    rw [alGet_alSet_ne _ k _ _ hU, alGet_alSet_ne _ k _ _ hI, alGet_eraseList]
    rw [if_neg hmem]

/-- Claim C9: the validator returns the whitespace-stripped identifier, the
handler runs integrate on that stripped identifier, and an identifier
with surrounding whitespace is handled identically to its stripped
form. -/
theorem claim_id_normalization :
    (∀ raw id, validate_document_id (some raw) = Except.ok id → id = pyStrip raw) ∧
    (∀ faults s raw id, validate_document_id (some raw) = Except.ok id →
      handle_pubsub_message faults s (some raw) =
        (mapResult (integrate faults s id).result, (integrate faults s id).store)) ∧
    (∀ faults s, handle_pubsub_message faults s (some ("  k ")) =
      handle_pubsub_message faults s (some ("k"))) := by
  refine ⟨?_, ?_, ?_⟩
  · intro raw id h
    by_cases hraw : raw = ""
    · subst hraw
      simp [validate_document_id] at h
    · simp only [validate_document_id, if_neg hraw] at h
      split_ifs at h
      exact (Except.ok.inj h).symm
  · intro faults s raw id h
    simp [handle_pubsub_message, h]
  · intro faults s
    rfl

/-- Claim C10: for every staged field map, even one already carrying
integratedAt or updatedAt values, the transform output binds both fields
to the server-timestamp sentinel; staged values for them are never
carried through. -/
theorem claim_timestamps_store_assigned (d : Doc) (v w : Value)
    (_hIin : alGet d ("integratedAt") = some v)
    (_hUin : alGet d ("updatedAt") = some w) :
    alGet (prepare_final_doc d) ("integratedAt") = some Value.serverTimestamp ∧
    alGet (prepare_final_doc d) ("updatedAt") = some Value.serverTimestamp ∧
    (v ≠ Value.serverTimestamp →
      alGet (prepare_final_doc d) ("integratedAt") ≠ some v) ∧
    (w ≠ Value.serverTimestamp →
      alGet (prepare_final_doc d) ("updatedAt") ≠ some w) := by
  have hIts : alGet (prepare_final_doc d) ("integratedAt") =
      some Value.serverTimestamp := by
    simp only [prepare_final_doc]
    rw [alGet_alSet_ne _ _ _ _ (by decide : ("integratedAt" : String) ≠ "updatedAt")]
    exact alGet_alSet_same _ _ _
  have hUts : alGet (prepare_final_doc d) ("updatedAt") =
      some Value.serverTimestamp := by
    simp only [prepare_final_doc]
    exact alGet_alSet_same _ _ _
  refine ⟨hIts, hUts, ?_, ?_⟩
  · intro hne hc
    rw [hIts] at hc
    exact hne (Option.some.inj hc).symm
  · intro hne hc
    rw [hUts] at hc
    exact hne (Option.some.inj hc).symm

end IntegrateArticles

namespace IntegrateArticles

/-- Witness for C1 at a concrete store holding one processed document. -/
theorem claim_idempotent_move_witness :
    (integrate noFaults sampleStore "k").result = Except.ok true ∧
    (integrate noFaults (integrate noFaults sampleStore "k").store "k").result =
      Except.ok false ∧
    alCount (integrate noFaults
      (integrate noFaults sampleStore "k").store "k").store.final "k" = 1 ∧
    alCount (integrate noFaults
      (integrate noFaults sampleStore "k").store "k").store.staging "k" = 0 :=
  claim_idempotent_move sampleStore "k" sampleDoc (by decide) (by decide) (by decide)

/-- Witness for C2 at a concrete store whose final record exists. -/
theorem claim_already_moved_branch_witness :
    (integrate noFaults sampleStoreFinal "k").result = Except.ok false ∧
    (integrate noFaults sampleStoreFinal "k").store.final = sampleStoreFinal.final ∧
    (integrate noFaults sampleStoreFinal "k").store.staging =
      alErase sampleStoreFinal.staging "k" ∧
    alCount (integrate noFaults sampleStoreFinal "k").store.final "k" =
      alCount sampleStoreFinal.final "k" :=
  claim_already_moved_branch sampleStoreFinal "k" ([("title", Value.str ("X"))])
    (by decide)

/-- Witness for C3 at a concrete eligible store. -/
theorem claim_moved_branch_witness :
    (integrate noFaults sampleStore "k").result = Except.ok true ∧
    (integrate noFaults sampleStore "k").store.final =
      alSet sampleStore.final "k" (prepare_final_doc sampleDoc) ∧
    (integrate noFaults sampleStore "k").store.staging =
      alErase sampleStore.staging "k" ∧
    alCount (integrate noFaults sampleStore "k").store.final "k" = 1 ∧
    alGet (integrate noFaults sampleStore "k").store.staging "k" = none :=
  claim_moved_branch sampleStore "k" sampleDoc (by decide) (by decide) (by decide)

/-- Witness for C4 at a concrete store whose staged document is queued. -/
theorem claim_state_gate_witness :
    (integrate noFaults queuedStore "k").store = queuedStore ∧
    (integrate noFaults queuedStore "k").retryLogs = 0 := by
  have h := claim_state_gate queuedStore "k" (by decide)
    (fun d hd => by
      have h2 : some ([(("status" : String), Value.str ("queued"))]) = some d := hd
      rw [← Option.some.inj h2]
      decide)
  exact ⟨h.2.1, h.2.2⟩

/-- Witness for C5 with concrete transient and non-transient errors. -/
theorem claim_retry_policy_witness :
    integrate (failFirst (Err.other ("boom"))) sampleStore "k" =
      ⟨Except.error (Err.other ("boom")), sampleStore, 0⟩ ∧
    integrate (failFirstTwo Err.aborted Err.deadlineExceeded) sampleStore "k" =
      ⟨Except.ok true,
        { staging := alErase sampleStore.staging "k",
          final := alSet sampleStore.final "k" (prepare_final_doc sampleDoc) }, 2⟩ ∧
    integrate (failAll Err.aborted Err.deadlineExceeded Err.serviceUnavailable)
      sampleStore "k" = ⟨Except.error Err.serviceUnavailable, sampleStore, 2⟩ := by
  have h := claim_retry_policy sampleStore "k" sampleDoc Err.aborted
    Err.deadlineExceeded Err.serviceUnavailable rfl rfl rfl
    (by decide) (by decide) (by decide)
  exact ⟨h.1 (Err.other ("boom")) rfl, h.2.1, h.2.2.1⟩

/-- Witness for C6: a commit-time failure injected after the write
leaves the concrete store untouched. -/
theorem claim_atomicity_witness :
    (runTransaction sampleStore "k" (some (Fault.atCommit Err.aborted))).2 =
      sampleStore :=
  claim_atomicity sampleStore "k" (some (Fault.atCommit Err.aborted)) Err.aborted
    (by decide)

/-- Witness for C7: a concrete malformed id is rejected with the store
untouched. -/
theorem claim_id_validation_gate_witness :
    handle_pubsub_message noFaults sampleStore (some ("a/b")) =
      (Outcome.rejected ("documentId contains invalid characters"), sampleStore) :=
  claim_id_validation_gate.2.2.2.2.2.2 noFaults sampleStore ("a/b")
    ("documentId contains invalid characters") (by decide)

/-- Witness for C8 at the spec's concrete example document. -/
theorem claim_record_transform_witness :
    alGet (prepare_final_doc sampleDoc) ("batchId") = none ∧
    alGet (prepare_final_doc sampleDoc) ("title") = alGet sampleDoc ("title") := by
  have h1 := claim_record_transform sampleDoc ("batchId")
  have h2 := claim_record_transform sampleDoc ("title")
  exact ⟨h1.1 (by decide), h2.2.2.2 (by decide) (by decide) (by decide)⟩

/-- Witness for C9: the validator strips a concrete padded id and the
handler treats padded and stripped forms identically. -/
theorem claim_id_normalization_witness :
    ("k" : String) = pyStrip ("  k ") ∧
    handle_pubsub_message noFaults sampleStore (some ("  k ")) =
      (mapResult (integrate noFaults sampleStore "k").result,
        (integrate noFaults sampleStore "k").store) :=
  ⟨claim_id_normalization.1 ("  k ") ("k") (by decide),
   claim_id_normalization.2.1 noFaults sampleStore ("  k ") ("k") (by decide)⟩

/-- Witness for C10 at a concrete document already carrying timestamp
values. -/
theorem claim_timestamps_store_assigned_witness :
    alGet (prepare_final_doc docWithTs) ("integratedAt") =
      some Value.serverTimestamp ∧
    alGet (prepare_final_doc docWithTs) ("updatedAt") =
      some Value.serverTimestamp := by
  have h := claim_timestamps_store_assigned docWithTs (Value.str ("old"))
    (Value.str ("older")) (by decide) (by decide)
  exact ⟨h.1, h.2.1⟩

end IntegrateArticles
